import Mathlib

/-!
Verification of the client-side consistency and progression engine of a
mobile social client (offline action queue, sync engine, TTL cache, and
gamification ledger).  The definitions below are shallow embeddings of the
TypeScript source: pure functions become Lean functions, the stateful
services become explicit state-passing functions, JavaScript numbers become
Nat / Int, and fallible asynchronous calls become Except-valued functions.
-/

/- == Level table and level derivation (src/src/utils/gamification.ts) == -/

/-- One entry of the level table (LevelDefinition): a level number and the
experience threshold required to reach it.  Only the fields relevant to
level computation are modelled. -/
structure LevelDefinition where
  level : Nat
  xpRequired : Int
deriving DecidableEq, Repr

/-- Embeds the descending for-loop of calculateLevel: scan the given list
front to back and return the level of the first entry whose threshold is
met, defaulting to 1.  calculateLevel runs this on the reversed table,
matching the loop from the last index down to 0. -/
def findLevelDesc (xp : Int) : List LevelDefinition → Nat
  | [] => 1
  | d :: rest => if d.xpRequired ≤ xp then d.level else findLevelDesc xp rest

/-- calculateLevel from src/src/utils/gamification.ts: iterate
LEVEL_DEFINITIONS from the last entry down and return the first level whose
xpRequired is ≤ xp; default to level 1. -/
def calculateLevel (defs : List LevelDefinition) (xp : Int) : Nat :=
  findLevelDesc xp defs.reverse

/-- Modelled from the spec: the level invariant
level = max of the set of L with LevelTable[L].xpRequired ≤ experience,
with level 1 when no threshold is met.  Used to compare the source's
calculateLevel against the spec's formula. -/
def specLevelOf (defs : List LevelDefinition) (xp : Int) : Nat :=
  ((defs.filter (fun d => decide (d.xpRequired ≤ xp))).map (fun d => d.level)).foldl max 1

/-- Modelled from the spec: the concrete level table of Scenario A
(thresholds 0, 50, 150 for levels 1, 2, 3); the repository's actual
LEVEL_DEFINITIONS constant is not among the provided source files. -/
def specLevels : List LevelDefinition :=
  [⟨1, 0⟩, ⟨2, 50⟩, ⟨3, 150⟩]

/- == Progression ledger data model (src/src/types, users collection) == -/

/-- JavaScript's a-or-else-b on an optional number: undefined and 0 are
falsy and fall through to the default. -/
def jsOrNat (o : Option Nat) (d : Nat) : Nat :=
  match o with
  | some v => if v = 0 then d else v
  | none => d

/-- The requirement of an achievement definition: a counter metric and a
threshold count, as consumed by the switch in checkAchievementsForUser
(src/src/utils/gamification.ts). -/
inductive AchReq where
  | friends (n : Nat)
  | posts (n : Nat)
  | likes (n : Nat)
  | comments (n : Nat)
  | followers (n : Nat)
  | streak (n : Nat)
deriving DecidableEq, Repr

/-- One achievement-catalog entry: id, experience reward and requirement
(title, description and icon are irrelevant to the claims). -/
structure AchievementDefinition where
  id : String
  xpReward : Nat
  req : AchReq
deriving DecidableEq, Repr

/-- Modelled from the spec: a one-entry achievement catalog with the posts
threshold 10 of Scenario C; the repository's actual requirement-bearing
ACHIEVEMENT_DEFINITIONS constant is not among the provided source files. -/
def specCatalog : List AchievementDefinition :=
  [⟨"posts10", 100, AchReq.posts 10⟩]

/-- The stored user document (users collection), restricted to the fields
the progression engine reads: experience, stored level, unlocked
achievement ids, raw relationship arrays (only their lengths matter) and
the denormalized counters, which may be absent (Option). -/
structure UserDoc where
  xp : Int
  level : Nat
  achievements : List String
  friendsLen : Nat
  followersLen : Nat
  followingLen : Nat
  totalPosts : Option Nat
  totalLikes : Option Nat
  totalFriends : Option Nat
  totalFollowers : Option Nat
  dailyStreak : Option Nat
deriving DecidableEq, Repr

/-- The activity counters an achievement requirement can read; unlocking
achievements changes none of these. -/
def countersOf (u : UserDoc) : Nat × Nat × Option Nat × Option Nat × Option Nat × Option Nat × Option Nat :=
  (u.friendsLen, u.followersLen, u.totalPosts, u.totalLikes, u.totalFriends,
   u.totalFollowers, u.dailyStreak)

/-- The switch of checkAchievementsForUser: whether a requirement is met by
the user's counters.  The comments metric is not tracked and never
unlocks (the source's case body is empty). -/
def reqSatisfied (u : UserDoc) : AchReq → Bool
  | .friends n => decide (n ≤ jsOrNat u.totalFriends u.friendsLen)
  | .posts n => decide (n ≤ jsOrNat u.totalPosts 0)
  | .likes n => decide (n ≤ jsOrNat u.totalLikes 0)
  | .comments _ => false
  | .followers n => decide (n ≤ jsOrNat u.totalFollowers u.followersLen)
  | .streak n => decide (n ≤ jsOrNat u.dailyStreak 0)

/-- checkAchievementsForUser (src/src/utils/gamification.ts): walk the
catalog in order, skip achievements already present, and collect the ids of
the definitions whose requirement is satisfied. -/
def checkAchievementsForUser (catalog : List AchievementDefinition) (u : UserDoc) :
    List String :=
  (catalog.filter (fun a => !(u.achievements.contains a.id) && reqSatisfied u a.req)).map
    (fun a => a.id)

/-- The xpReward lookup inside checkAndUnlockAchievements:
ACHIEVEMENT_DEFINITIONS.find(...)?.xpReward or 0. -/
def achievementXP (catalog : List AchievementDefinition) (i : String) : Nat :=
  match catalog.find? (fun a => a.id == i) with
  | some a => a.xpReward
  | none => 0

/-- checkAndUnlockAchievements (src/src/services/levelService.ts): compute
the newly satisfied achievement ids; if none, do nothing; otherwise append
them to the stored achievements, add the summed rewards to xp with a single
increment, and raise the stored level if the recomputed level exceeds the
stored one.  Returns the updated user document and the new ids. -/
def checkAndUnlockAchievements (table : List LevelDefinition)
    (catalog : List AchievementDefinition) (u : UserDoc) : UserDoc × List String :=
  let newIds := checkAchievementsForUser catalog u
  if newIds.isEmpty then (u, [])
  else
    let totalXP : Nat := (newIds.map (achievementXP catalog)).sum
    let u1 := { u with achievements := u.achievements ++ newIds,
                       xp := u.xp + (totalXP : Int) }
    let newLevel := calculateLevel table (u.xp + (totalXP : Int))
    if newLevel > u.level then ({ u1 with level := newLevel }, newIds) else (u1, newIds)

/-- awardXP (src/src/services/levelService.ts) as a state transformer on
the stored user: a non-positive (or missing, hence 0) reward is a no-op;
otherwise xp is incremented and the level recomputed from the new xp. -/
def awardXP (table : List LevelDefinition) (xpAmount : Int) (u : UserDoc) : UserDoc :=
  if xpAmount ≤ 0 then u
  else { u with xp := u.xp + xpAmount, level := calculateLevel table (u.xp + xpAmount) }

/-- applyRetroactiveXP (offline gamification service): clamp the computed
retroactive credit at 0 (the Math.max(0, ...) at the end of
calculateRetroactiveXP), and overwrite xp and level only when the credit
exceeds the current xp; otherwise only bookkeeping flags change. -/
def applyRetroactiveXP (table : List LevelDefinition) (rawRetro : Int) (u : UserDoc) :
    UserDoc :=
  let credit := max 0 rawRetro
  if u.xp < credit then { u with xp := credit, level := calculateLevel table credit }
  else u

/-- The result of getUserDataWithCounts: the user document returned to the
caller and whether the corrected counters were written back. -/
structure CountsResult where
  user : UserDoc
  wrote : Bool
deriving DecidableEq, Repr

/-- getUserDataWithCounts (src/src/services/postsService.ts), existing-user
branch: overwrite totalPosts with the authoritative recount, recompute the
relationship counters from the arrays, default xp to 0 and level to 1 when
falsy, and write the corrected counters back exactly when the recount
disagrees with the stored totalPosts.  No achievement re-evaluation and no
level recomputation happens on this path. -/
def getUserDataWithCounts (stored : UserDoc) (postCount : Nat) : CountsResult :=
  let u := { stored with
    totalPosts := some postCount,
    totalFriends := some stored.friendsLen,
    totalFollowers := some stored.followersLen,
    level := if stored.level = 0 then 1 else stored.level }
  { user := u, wrote := decide (postCount ≠ jsOrNat stored.totalPosts 0) }

/- == Local cache store (offlineStorage, src/unnamed/part_010) == -/

/-- A stored cache record: data, write timestamp, absolute expiration. -/
structure CacheItem (T : Type) where
  data : T
  timestamp : Int
  expiration : Int
deriving DecidableEq, Repr

namespace offlineStorage

/-- cacheData: wrap the value with timestamp now and expiration
now + expirationMinutes * 60 * 1000. -/
def cacheData {T : Type} (now : Int) (expirationMinutes : Int) (data : T) : CacheItem T :=
  { data := data, timestamp := now, expiration := now + expirationMinutes * 60 * 1000 }

/-- getCachedData on the stored record for a key: a missing record is a
miss; a record with a truthy (nonzero) expiration strictly in the past is
evicted (second component true) and reported as a miss; otherwise the data
is returned.  Mirrors the guard
`if (parsedItem.expiration && Date.now() > parsedItem.expiration)`. -/
def getCachedData {T : Type} (now : Int) (stored : Option (CacheItem T)) :
    Option T × Bool :=
  match stored with
  | none => (none, false)
  | some it =>
    if it.expiration ≠ 0 ∧ it.expiration < now then (none, true)
    else (some it.data, false)

end offlineStorage

/- == Offline action queue and sync engine (src/unnamed/part_011) == -/

/-- The kind-specific payload of a queued offline action.  CREATE_POST
carries the post data (note: no id field, so the local placeholder id is
not part of the queued payload); LIKE_POST carries the target post id. -/
inductive ActionData where
  | createPost (userId content : String)
  | likePost (postId : String)
  | createComment (postId userId text : String)
  | emptyData
deriving DecidableEq, Repr

/-- OfflineAction (src/src/types): a queued mutation record. -/
structure OfflineAction where
  id : String
  type : String
  userId : String
  data : ActionData
  timestamp : Nat
deriving DecidableEq, Repr

namespace OfflineService

/-- The mutable fields of the OfflineService singleton. -/
structure ServiceState where
  isOnline : Bool
  syncInProgress : Bool
  syncQueue : List OfflineAction
deriving DecidableEq, Repr

/-- The inner AsyncStorage.setItem call backing cacheData: it can reject. -/
def setItemResult (persistOk : Bool) : Except String Unit :=
  if persistOk then Except.ok () else Except.error "storage write failed"

/-- cacheData (OfflineService): the setItem rejection is caught, logged and
swallowed, so the call always resolves. -/
def cacheData (persistOk : Bool) : Except String Unit :=
  match setItemResult persistOk with
  | Except.ok _ => Except.ok ()
  | Except.error _ => Except.ok ()

/-- addOfflineAction: push the action onto the in-memory queue, then
persist via saveOfflineActions / cacheData.  Returns the new queue and the
outcome surfaced to the caller. -/
def addOfflineAction (queue : List OfflineAction) (a : OfflineAction)
    (persistOk : Bool) : List OfflineAction × Except String Unit :=
  (queue ++ [a], cacheData persistOk)

/-- The body of the for-loop of syncOfflineActions, with the outcome of
each processOfflineAction dispatch abstracted as dispatchOk: on success the
action is just logged, on failure it is pushed onto failedActions; either
way the loop continues with the next action.  Returns (failedActions,
actions dispatched). -/
def drainLoop (dispatchOk : OfflineAction → Bool) (acts : List OfflineAction) :
    List OfflineAction × List OfflineAction :=
  acts.foldl
    (fun res a =>
      if dispatchOk a then (res.1, res.2 ++ [a]) else (res.1 ++ [a], res.2 ++ [a]))
    ([], [])

/-- syncOfflineActions (OfflineService): bail out unless online, not
already syncing, and the queue is non-empty; otherwise snapshot the queue,
run the loop over the snapshot, overwrite the queue with the failed
actions, and clear the in-progress flag.  Returns the new state and the
list of actions that were dispatched to the remote service. -/
def syncOfflineActions (s : ServiceState) (dispatchOk : OfflineAction → Bool) :
    ServiceState × List OfflineAction :=
  if !s.isOnline || s.syncInProgress || s.syncQueue.isEmpty then (s, [])
  else
    let r := drainLoop dispatchOk s.syncQueue
    ({ s with syncQueue := r.1, syncInProgress := false }, r.2)

/-- syncOfflineActions with actions enqueued concurrently during the pass:
addOfflineAction calls interleaved with the awaits of the loop push onto
this.syncQueue, and the final assignment `this.syncQueue = failedActions`
then overwrites the whole queue with the failures computed from the
snapshot alone.  When the guard bails out, the concurrent enqueues simply
append. -/
def syncPassWithEnqueues (s : ServiceState) (dispatchOk : OfflineAction → Bool)
    (during : List OfflineAction) : ServiceState × List OfflineAction :=
  if !s.isOnline || s.syncInProgress || s.syncQueue.isEmpty then
    ({ s with syncQueue := s.syncQueue ++ during }, [])
  else
    let r := drainLoop dispatchOk s.syncQueue
    ({ s with syncQueue := r.1, syncInProgress := false }, r.2)

/-- The offline branch of OfflineService.createPost: build the queued
CREATE_POST action (whose payload carries only userId and content, not the
local placeholder id) and the placeholder post id offline_<now> returned to
the caller. -/
def createPostOffline (now : Nat) (userId content : String) (s : ServiceState) :
    ServiceState × String :=
  let action : OfflineAction :=
    ⟨"create_post_" ++ toString now, "CREATE_POST", userId,
      ActionData.createPost userId content, now⟩
  ({ s with syncQueue := s.syncQueue ++ [action] }, "offline_" ++ toString now)

/-- The offline branch of OfflineService.likePost: queue a LIKE_POST action
whose payload carries the post id exactly as the caller saw it. -/
def likePostOffline (now : Nat) (postId userId : String) (s : ServiceState) :
    ServiceState :=
  { s with syncQueue := s.syncQueue ++
      [⟨"like_post_" ++ postId ++ "_" ++ toString now, "LIKE_POST", userId,
        ActionData.likePost postId, now⟩] }

end OfflineService

namespace NetworkService

/-- removeFromOfflineQueue (offlineStorage): drop every queued action whose
id matches. -/
def removeFromOfflineQueue (queue : List OfflineAction) (actionId : String) :
    List OfflineAction :=
  queue.filter (fun a => !(a.id == actionId))

/-- The for-loop of NetworkService.syncOfflineActions: iterate over the
snapshot; a successful dispatch removes the action from the persistent
queue by id, a failed one leaves the queue untouched and the loop
continues. -/
def netDrainLoop (dispatchOk : OfflineAction → Bool) (snapshot : List OfflineAction)
    (persisted : List OfflineAction) : List OfflineAction :=
  snapshot.foldl
    (fun q a => if dispatchOk a then removeFromOfflineQueue q a.id else q) persisted

/-- NetworkService.syncOfflineActions: bail out when offline or a sync is
already in progress; otherwise read the persistent queue as the snapshot
and run the loop.  Returns the final persistent queue and the dispatched
actions. -/
def syncOfflineActions (connected inProgress : Bool) (queue : List OfflineAction)
    (dispatchOk : OfflineAction → Bool) : List OfflineAction × List OfflineAction :=
  if !connected || inProgress then (queue, [])
  else (netDrainLoop dispatchOk queue queue, queue)

/-- NetworkService.forceSync: throw when offline, otherwise delegate to
syncOfflineActions. -/
def forceSync (connected inProgress : Bool) (queue : List OfflineAction)
    (dispatchOk : OfflineAction → Bool) :
    Except String (List OfflineAction × List OfflineAction) :=
  if !connected then Except.error "No internet connection"
  else Except.ok (syncOfflineActions connected inProgress queue dispatchOk)

end NetworkService

/- == Remote document store semantics for the drain (firestore module) == -/

/-- A post document in the remote posts collection. -/
structure RemotePost where
  id : String
  userId : String
  content : String
  likedBy : List String
  likes : Int
deriving DecidableEq, Repr

/-- The remote posts collection together with the server's id supply. -/
structure RemoteState where
  posts : List RemotePost
  nextId : Nat
deriving DecidableEq, Repr

/-- The server-assigned document id for the n-th created document. -/
def serverId (n : Nat) : String :=
  "server_" ++ toString n

/-- firestore createPost: add the document with zero counters and a fresh
server-assigned id, returning the new id (user counter and XP side effects
are outside the posts collection and not needed by the claims). -/
def firebaseCreatePost (st : RemoteState) (userId content : String) :
    RemoteState × String :=
  let pid := serverId st.nextId
  ({ posts := st.posts ++ [⟨pid, userId, content, [], 0⟩], nextId := st.nextId + 1 },
   pid)

/-- firestore likePost: read the post document; if it does not exist the
call resolves without doing anything; otherwise toggle: unlike when the
user already liked, like otherwise. -/
def firebaseLikePost (st : RemoteState) (postId userId : String) : RemoteState :=
  match st.posts.find? (fun p => p.id == postId) with
  | none => st
  | some p =>
    if p.likedBy.contains userId then
      { st with posts := st.posts.map (fun q =>
          if q.id == postId then
            { q with likes := q.likes - 1, likedBy := q.likedBy.filter (fun v => v ≠ userId) }
          else q) }
    else
      { st with posts := st.posts.map (fun q =>
          if q.id == postId then
            { q with likes := q.likes + 1, likedBy := q.likedBy ++ [userId] }
          else q) }

/-- processOfflineAction (OfflineService) against the modelled remote
store: dispatch on the action type string.  CREATE_POST discards the
server-assigned id returned by createPost; LIKE_POST forwards the queued
post id unchanged; an unknown type only logs a warning.  None of the
modelled arms rejects, so every dispatched action counts as synced. -/
def processOfflineAction (st : RemoteState) (a : OfflineAction) : RemoteState :=
  if a.type = "CREATE_POST" then
    match a.data with
    | ActionData.createPost uid c => (firebaseCreatePost st uid c).1
    | _ => st
  else if a.type = "LIKE_POST" then
    match a.data with
    | ActionData.likePost pid => firebaseLikePost st pid a.userId
    | _ => st
  else st

/-- syncOfflineActions run against the modelled remote store: under the
same guard, fold the snapshot through processOfflineAction.  Because no
modelled arm rejects, failedActions is empty and the queue is overwritten
with the empty list. -/
def syncOfflineActionsRemote (st : RemoteState) (s : OfflineService.ServiceState) :
    RemoteState × OfflineService.ServiceState :=
  if !s.isOnline || s.syncInProgress || s.syncQueue.isEmpty then (st, s)
  else
    (s.syncQueue.foldl processOfflineAction st,
     { s with syncQueue := [], syncInProgress := false })

/- ============ Helper lemmas section comes after all definitions ======== -/

theorem le_foldl_max (l : List Nat) (a : Nat) : a ≤ l.foldl max a := by
  induction l generalizing a with
  | nil => exact le_refl a
  | cons x xs ih => exact le_trans (le_max_left a x) (ih (max a x))

theorem mem_le_foldl_max (l : List Nat) (a x : Nat) (hx : x ∈ l) : x ≤ l.foldl max a := by
  induction l generalizing a with
  | nil => cases hx
  | cons y ys ih =>
    rcases List.mem_cons.mp hx with h | h
    · subst h
      exact le_trans (le_max_right a x) (le_foldl_max ys (max a x))
    · exact ih (max a y) h

theorem foldl_max_cases (l : List Nat) (a : Nat) : l.foldl max a = a ∨ l.foldl max a ∈ l := by
  induction l generalizing a with
  | nil => left; rfl
  | cons x xs ih =>
    rcases ih (max a x) with h | h
    · rcases max_choice a x with hm | hm
      · left
        simpa [List.foldl, hm] using h
      · right
        rw [List.foldl, h, hm]
        exact List.mem_cons_self x xs
    · right
      exact List.mem_cons_of_mem x h

theorem findLevelDesc_cases (xp : Int) (l : List LevelDefinition) :
    findLevelDesc xp l = 1 ∨
      ∃ d, d ∈ l ∧ d.xpRequired ≤ xp ∧ findLevelDesc xp l = d.level := by
  induction l with
  | nil => left; rfl
  | cons d rest ih =>
    by_cases h : d.xpRequired ≤ xp
    · right
      exact ⟨d, List.mem_cons_self d rest, h, by simp [findLevelDesc, h]⟩
    · rcases ih with h1 | ⟨e, he, hs, hv⟩
      · left; simpa [findLevelDesc, h] using h1
      · right
        exact ⟨e, List.mem_cons_of_mem d he, hs, by simpa [findLevelDesc, h] using hv⟩

theorem findLevelDesc_ge (xp : Int) (l : List LevelDefinition)
    (hp : l.Pairwise (fun a b => b.level ≤ a.level)) (d : LevelDefinition)
    (hd : d ∈ l) (hs : d.xpRequired ≤ xp) : d.level ≤ findLevelDesc xp l := by
  induction l with
  | nil => cases hd
  | cons e rest ih =>
    rcases List.pairwise_cons.mp hp with ⟨he, hp2⟩
    rcases List.mem_cons.mp hd with h | h
    · subst h
      simp [findLevelDesc, hs]
    · by_cases hx : e.xpRequired ≤ xp
      · simpa [findLevelDesc, hx] using he d h
      · simpa [findLevelDesc, hx] using ih hp2 h

theorem findLevelDesc_ge_one (xp : Int) (l : List LevelDefinition)
    (h : ∀ d ∈ l, 1 ≤ d.level) : 1 ≤ findLevelDesc xp l := by
  induction l with
  | nil => exact le_refl 1
  | cons e rest ih =>
    by_cases hx : e.xpRequired ≤ xp
    · simpa [findLevelDesc, hx] using h e (List.mem_cons_self e rest)
    · simpa [findLevelDesc, hx] using ih (fun d hd => h d (List.mem_cons_of_mem e hd))

/-- The source level computation agrees with the spec's max-formula on
every table whose levels are non-decreasing and at least 1 (the spec
guarantees the level table is sorted ascending). -/
theorem calculateLevel_eq_specLevelOf (defs : List LevelDefinition) (xp : Int)
    (hmono : defs.Pairwise (fun a b => a.level ≤ b.level))
    (hone : ∀ d ∈ defs, 1 ≤ d.level) :
    calculateLevel defs xp = specLevelOf defs xp := by
  apply Nat.le_antisymm
  · rcases findLevelDesc_cases xp defs.reverse with h | ⟨d, hd, hs, hv⟩
    · rw [calculateLevel, h]
      exact le_foldl_max _ 1
    · rw [calculateLevel, hv]
      apply mem_le_foldl_max
      exact List.mem_map_of_mem _
        (List.mem_filter.mpr ⟨List.mem_reverse.mp hd, decide_eq_true hs⟩)
  · rcases foldl_max_cases ((defs.filter (fun d => decide (d.xpRequired ≤ xp))).map
      (fun d => d.level)) 1 with h | h
    · rw [specLevelOf, h]
      exact findLevelDesc_ge_one xp defs.reverse
        (fun d hd => hone d (List.mem_reverse.mp hd))
    · rcases List.mem_map.mp h with ⟨d, hdf, hv⟩
      rcases List.mem_filter.mp hdf with ⟨hmem, hpred⟩
      have hs : d.xpRequired ≤ xp := of_decide_eq_true hpred
      have hrev : d ∈ defs.reverse := List.mem_reverse.mpr hmem
      have hp : defs.reverse.Pairwise (fun a b => b.level ≤ a.level) :=
        List.pairwise_reverse.mpr hmono
      calc specLevelOf defs xp = d.level := hv.symm
        _ ≤ findLevelDesc xp defs.reverse := findLevelDesc_ge xp defs.reverse hp d hrev hs
        _ = calculateLevel defs xp := rfl

/- == Lemmas about the drain loops == -/

theorem drainLoop_go (dispatchOk : OfflineAction → Bool) (acts f d : List OfflineAction) :
    acts.foldl
      (fun res a =>
        if dispatchOk a then (res.1, res.2 ++ [a]) else (res.1 ++ [a], res.2 ++ [a]))
      (f, d)
      = (f ++ acts.filter (fun a => !(dispatchOk a)), d ++ acts) := by
  induction acts generalizing f d with
  | nil => simp
  | cons a rest ih =>
    by_cases h : dispatchOk a
    · simp [List.foldl, h, ih, List.filter_cons]
    · simp [List.foldl, h, ih, List.filter_cons]

/-- The drain loop keeps exactly the failed actions, in their original
order, and dispatches every action of the snapshot. -/
theorem drainLoop_eq (dispatchOk : OfflineAction → Bool) (acts : List OfflineAction) :
    OfflineService.drainLoop dispatchOk acts
      = (acts.filter (fun a => !(dispatchOk a)), acts) := by
  simpa [OfflineService.drainLoop] using drainLoop_go dispatchOk acts [] []

theorem netDrainLoop_filter (dispatchOk : OfflineAction → Bool)
    (snap q0 : List OfflineAction) :
    NetworkService.netDrainLoop dispatchOk snap q0
      = q0.filter (fun b => !(snap.any (fun a => dispatchOk a && b.id == a.id))) := by
  induction snap generalizing q0 with
  | nil => simp [NetworkService.netDrainLoop]
  | cons a rest ih =>
    have step : NetworkService.netDrainLoop dispatchOk (a :: rest) q0
        = NetworkService.netDrainLoop dispatchOk rest
            (if dispatchOk a then NetworkService.removeFromOfflineQueue q0 a.id else q0) :=
      rfl
    rw [step]
    by_cases h : dispatchOk a
    · rw [if_pos h, ih, NetworkService.removeFromOfflineQueue, List.filter_filter]
      apply List.filter_congr
      intro b _
      cases hb : (b.id == a.id) <;>
        cases hr : rest.any (fun x => dispatchOk x && b.id == x.id) <;>
          simp [List.any_cons, h, hb, hr]
    · rw [if_neg h, ih]
      apply List.filter_congr
      intro b _
      simp [List.any_cons, h]

/-- When queued action ids are pairwise distinct, the per-id removals of the
NetworkService loop leave exactly the failed snapshot actions in the
persistent queue. -/
theorem netDrainLoop_self (dispatchOk : OfflineAction → Bool)
    (snap : List OfflineAction) (hids : (snap.map (fun a => a.id)).Nodup) :
    NetworkService.netDrainLoop dispatchOk snap snap
      = snap.filter (fun a => !(dispatchOk a)) := by
  rw [netDrainLoop_filter]
  apply List.filter_congr
  intro b hb
  have hany : snap.any (fun a => dispatchOk a && b.id == a.id) = dispatchOk b := by
    cases h : dispatchOk b
    · cases hany : snap.any (fun a => dispatchOk a && b.id == a.id) with
      | false => rfl
      | true =>
        exfalso
        rcases List.any_eq_true.mp hany with ⟨a, ha, hpa⟩
        have h1 : dispatchOk a = true ∧ b.id = a.id := by simpa using hpa
        have hab : a = b := List.inj_on_of_nodup_map hids ha hb h1.2.symm
        rw [hab, h] at h1
        exact Bool.false_ne_true h1.1
    · exact List.any_eq_true.mpr ⟨b, hb, by simp [h]⟩
  rw [hany]

/-- Claim C1 counterexample: with a queue of two actions where the first
dispatch fails and the second succeeds, the drain pass still attempts the
second action (it appears in the dispatched list) and removes it from the
queue, so the stop-on-first-failure policy asserted by the claim does not
hold of the code. -/
theorem c1_counterexample :
    let a1 : OfflineAction := ⟨"a1", "CREATE_POST", "u1", ActionData.createPost "u1" "x", 1⟩
    let a2 : OfflineAction := ⟨"a2", "LIKE_POST", "u1", ActionData.likePost "p", 2⟩
    let r := OfflineService.syncOfflineActions ⟨true, false, [a1, a2]⟩
      (fun a => !(a.id == "a1"))
    a2 ∈ r.2 ∧ a2 ∉ r.1.syncQueue ∧ r.1.syncQueue = [a1] := by
  refine ⟨by decide, by decide, by decide⟩

/-- Claim C1 (amended): when a dispatch fails during a drain pass, both
sync engines leave the failed action queued but continue with the batch:
every snapshot action is attempted regardless of earlier failures, and
exactly the failed actions remain queued, in their original order
(skip-and-continue, not stop-on-first-failure). -/
theorem c1_drain_continues_past_failure (s : OfflineService.ServiceState)
    (dispatchOk : OfflineAction → Bool) (queue : List OfflineAction)
    (h1 : s.isOnline = true) (h2 : s.syncInProgress = false) (h3 : s.syncQueue ≠ [])
    (hids : (queue.map (fun a => a.id)).Nodup) :
    OfflineService.syncOfflineActions s dispatchOk
        = ({ s with syncQueue := s.syncQueue.filter (fun a => !(dispatchOk a)),
                    syncInProgress := false }, s.syncQueue) ∧
    NetworkService.syncOfflineActions true false queue dispatchOk
        = (queue.filter (fun a => !(dispatchOk a)), queue) := by
  have h4 : s.syncQueue.isEmpty = false := by
    cases hq : s.syncQueue with
    | nil => exact absurd hq h3
    | cons a l => rfl
  constructor
  · rw [OfflineService.syncOfflineActions]
    simp [h1, h2, h4, drainLoop_eq]
  · rw [NetworkService.syncOfflineActions]
    simp [netDrainLoop_self dispatchOk queue hids]

/-- Witness for c1_drain_continues_past_failure at a concrete two-action
queue whose first dispatch fails. -/
theorem c1_witness :
    OfflineService.syncOfflineActions
        ⟨true, false, [⟨"a1", "CREATE_POST", "u1", ActionData.createPost "u1" "x", 1⟩,
                       ⟨"a2", "LIKE_POST", "u1", ActionData.likePost "p", 2⟩]⟩
        (fun a => !(a.id == "a1"))
      = (⟨true, false, [⟨"a1", "CREATE_POST", "u1", ActionData.createPost "u1" "x", 1⟩]⟩,
         [⟨"a1", "CREATE_POST", "u1", ActionData.createPost "u1" "x", 1⟩,
          ⟨"a2", "LIKE_POST", "u1", ActionData.likePost "p", 2⟩]) ∧
    NetworkService.syncOfflineActions true false
        [⟨"a1", "CREATE_POST", "u1", ActionData.createPost "u1" "x", 1⟩,
         ⟨"a2", "LIKE_POST", "u1", ActionData.likePost "p", 2⟩]
        (fun a => !(a.id == "a1"))
      = ([⟨"a1", "CREATE_POST", "u1", ActionData.createPost "u1" "x", 1⟩],
         [⟨"a1", "CREATE_POST", "u1", ActionData.createPost "u1" "x", 1⟩,
          ⟨"a2", "LIKE_POST", "u1", ActionData.likePost "p", 2⟩]) := by
  have h := c1_drain_continues_past_failure
    ⟨true, false, [⟨"a1", "CREATE_POST", "u1", ActionData.createPost "u1" "x", 1⟩,
                   ⟨"a2", "LIKE_POST", "u1", ActionData.likePost "p", 2⟩]⟩
    (fun a => !(a.id == "a1"))
    [⟨"a1", "CREATE_POST", "u1", ActionData.createPost "u1" "x", 1⟩,
     ⟨"a2", "LIKE_POST", "u1", ActionData.likePost "p", 2⟩]
    rfl rfl (by decide) (by decide)
  exact ⟨by rw [h.1]; decide, by rw [h.2]; decide⟩

/-- Claim C3: while a drain is already in progress, every drain entry point
is a no-op: it dispatches nothing and leaves the queue (and the whole
service state) unchanged, so at most one drain runs at a time. -/
theorem c3_drain_single_flight (s : OfflineService.ServiceState)
    (dispatchOk : OfflineAction → Bool) (queue : List OfflineAction) (connected : Bool)
    (h : s.syncInProgress = true) :
    OfflineService.syncOfflineActions s dispatchOk = (s, []) ∧
    NetworkService.syncOfflineActions connected true queue dispatchOk = (queue, []) ∧
    NetworkService.forceSync true true queue dispatchOk = Except.ok (queue, []) := by
  refine ⟨?_, ?_, ?_⟩
  · rw [OfflineService.syncOfflineActions]
    simp [h]
  · rw [NetworkService.syncOfflineActions]
    simp
  · rfl

/-- Witness for c3_drain_single_flight: a concrete in-progress state with a
pending action. -/
theorem c3_witness :
    OfflineService.syncOfflineActions
        ⟨true, true, [⟨"a1", "CREATE_POST", "u1", ActionData.createPost "u1" "x", 1⟩]⟩
        (fun _ => true)
      = (⟨true, true, [⟨"a1", "CREATE_POST", "u1", ActionData.createPost "u1" "x", 1⟩]⟩, []) ∧
    NetworkService.syncOfflineActions true true
        [⟨"a1", "CREATE_POST", "u1", ActionData.createPost "u1" "x", 1⟩] (fun _ => true)
      = ([⟨"a1", "CREATE_POST", "u1", ActionData.createPost "u1" "x", 1⟩], []) ∧
    NetworkService.forceSync true true
        [⟨"a1", "CREATE_POST", "u1", ActionData.createPost "u1" "x", 1⟩] (fun _ => true)
      = Except.ok ([⟨"a1", "CREATE_POST", "u1", ActionData.createPost "u1" "x", 1⟩], []) :=
  c3_drain_single_flight
    ⟨true, true, [⟨"a1", "CREATE_POST", "u1", ActionData.createPost "u1" "x", 1⟩]⟩
    (fun _ => true)
    [⟨"a1", "CREATE_POST", "u1", ActionData.createPost "u1" "x", 1⟩] true rfl

/-- Claim C10: after a drain pass that actually ran, the queue is exactly
the failed part of the snapshot in its original order, and the final
wholesale overwrite loses any action enqueued during the pass that was not
part of the snapshot. -/
theorem c10_queue_overwritten_wholesale (s : OfflineService.ServiceState)
    (dispatchOk : OfflineAction → Bool) (during : List OfflineAction)
    (h1 : s.isOnline = true) (h2 : s.syncInProgress = false) (h3 : s.syncQueue ≠ []) :
    (OfflineService.syncPassWithEnqueues s dispatchOk during).1.syncQueue
        = s.syncQueue.filter (fun a => !(dispatchOk a)) ∧
    ∀ a ∈ during, a ∉ s.syncQueue →
      a ∉ (OfflineService.syncPassWithEnqueues s dispatchOk during).1.syncQueue := by
  have h4 : s.syncQueue.isEmpty = false := by
    cases hq : s.syncQueue with
    | nil => exact absurd hq h3
    | cons a l => rfl
  have hq : (OfflineService.syncPassWithEnqueues s dispatchOk during).1.syncQueue
      = s.syncQueue.filter (fun a => !(dispatchOk a)) := by
    rw [OfflineService.syncPassWithEnqueues]
    simp [h1, h2, h4, drainLoop_eq]
  refine ⟨hq, ?_⟩
  intro a _ hnot hmem
  rw [hq] at hmem
  exact hnot (List.mem_of_mem_filter hmem)

/-- Witness for c10_queue_overwritten_wholesale: a failed snapshot action
survives, the concurrently enqueued action does not. -/
theorem c10_witness :
    (OfflineService.syncPassWithEnqueues
        ⟨true, false, [⟨"a1", "CREATE_POST", "u1", ActionData.createPost "u1" "x", 1⟩]⟩
        (fun _ => false)
        [⟨"b1", "LIKE_POST", "u2", ActionData.likePost "p", 5⟩]).1.syncQueue
      = [⟨"a1", "CREATE_POST", "u1", ActionData.createPost "u1" "x", 1⟩] ∧
    ⟨"b1", "LIKE_POST", "u2", ActionData.likePost "p", 5⟩ ∉
      (OfflineService.syncPassWithEnqueues
        ⟨true, false, [⟨"a1", "CREATE_POST", "u1", ActionData.createPost "u1" "x", 1⟩]⟩
        (fun _ => false)
        [⟨"b1", "LIKE_POST", "u2", ActionData.likePost "p", 5⟩]).1.syncQueue := by
  have h := c10_queue_overwritten_wholesale
    ⟨true, false, [⟨"a1", "CREATE_POST", "u1", ActionData.createPost "u1" "x", 1⟩]⟩
    (fun _ => false)
    [⟨"b1", "LIKE_POST", "u2", ActionData.likePost "p", 5⟩]
    rfl rfl (by decide)
  refine ⟨by rw [h.1]; decide, ?_⟩
  exact h.2 ⟨"b1", "LIKE_POST", "u2", ActionData.likePost "p", 5⟩ (by decide) (by decide)

/-- Claim C2: evaluation at the failing input.  A post is created offline
(placeholder id offline_100, and the queued CREATE_POST payload carries no
id at all) and then liked offline, so the queue is
CREATE_POST then LIKE_POST(offline_100).  Draining against an empty remote
store creates the post under the fresh server-assigned id server_0, but the
like is dispatched with the placeholder id unchanged; the remote likePost
silently no-ops on the missing document, so the created post ends with no
likes, and the like action is also removed from the queue (it does not even
remain queued for retry). -/
theorem c2_like_silently_dropped :
    let s0 : OfflineService.ServiceState := ⟨false, false, []⟩
    let r1 := OfflineService.createPostOffline 100 "u1" "hello" s0
    let s2 := OfflineService.likePostOffline 101 r1.2 "u1" r1.1
    let s3 : OfflineService.ServiceState := ⟨true, s2.syncInProgress, s2.syncQueue⟩
    r1.2 = "offline_100" ∧
    syncOfflineActionsRemote ⟨[], 0⟩ s3
      = (⟨[⟨"server_0", "u1", "hello", [], 0⟩], 1⟩, ⟨true, false, []⟩) := by
  exact ⟨by decide, by decide⟩

/-- Claim C4 counterexample: with a failing persistent store, the enqueue
call still resolves successfully — the persistence error is not surfaced to
the caller. -/
theorem c4_counterexample :
    (OfflineService.addOfflineAction []
        ⟨"create_post_1", "CREATE_POST", "u1", ActionData.createPost "u1" "x", 1⟩
        false).2
      = Except.ok () := by
  rfl

/-- Claim C4 (amended): a queue-persistence failure is caught and swallowed
inside cacheData, so addOfflineAction always resolves successfully and the
action survives only in the in-memory queue; the failure is never surfaced
to the caller. -/
theorem c4_enqueue_swallows_persist_failure (queue : List OfflineAction)
    (a : OfflineAction) (persistOk : Bool) :
    OfflineService.addOfflineAction queue a persistOk = (queue ++ [a], Except.ok ()) := by
  cases persistOk <;> rfl

/-- Claim C5 counterexample: a stored user with experience 0 but stored
level 5 is returned by getUserDataWithCounts with level 5, while
recomputing the level from experience (on the sorted Scenario-A table)
gives 1 — the read path neither recomputes the level from experience nor
corrects the disagreeing stored copy. -/
theorem c5_counterexample :
    (getUserDataWithCounts
        ⟨0, 5, [], 0, 0, 0, some 0, some 0, some 0, some 0, some 0⟩ 0).user.level = 5 ∧
    calculateLevel specLevels 0 = 1 ∧ (5 : Nat) ≠ 1 := by
  refine ⟨rfl, by decide, by decide⟩

/-- Claim C5 (amended): the pure level derivation calculateLevel does
compute max of the levels whose threshold is met (default 1) on every table
with non-decreasing levels of at least 1; but the user read path
getUserDataWithCounts reports the stored level field (defaulted to 1 when
falsy) without recomputing it from experience or correcting it. -/
theorem c5_level_formula_and_read_path (defs : List LevelDefinition) (xp : Int)
    (hmono : defs.Pairwise (fun a b => a.level ≤ b.level))
    (hone : ∀ d ∈ defs, 1 ≤ d.level) (stored : UserDoc) (postCount : Nat) :
    calculateLevel defs xp = specLevelOf defs xp ∧
    (getUserDataWithCounts stored postCount).user.level
      = (if stored.level = 0 then 1 else stored.level) :=
  ⟨calculateLevel_eq_specLevelOf defs xp hmono hone, rfl⟩

/-- Witness for c5_level_formula_and_read_path on the Scenario-A table at
experience 60 and a stored user with level 5 and experience 0. -/
theorem c5_witness :
    calculateLevel specLevels 60 = specLevelOf specLevels 60 ∧
    (getUserDataWithCounts
        ⟨0, 5, [], 0, 0, 0, some 0, some 0, some 0, some 0, some 0⟩ 3).user.level
      = (if (5 : Nat) = 0 then 1 else 5) :=
  c5_level_formula_and_read_path specLevels 60 (by decide) (by decide)
    ⟨0, 5, [], 0, 0, 0, some 0, some 0, some 0, some 0, some 0⟩ 3

/- == Lemmas about achievement unlocking == -/

theorem unlock_snd_eq (t : List LevelDefinition) (c : List AchievementDefinition)
    (u : UserDoc) :
    (checkAndUnlockAchievements t c u).2 = checkAchievementsForUser c u := by
  rw [checkAndUnlockAchievements]
  by_cases h : (checkAchievementsForUser c u).isEmpty
  · simp [h, List.isEmpty_iff.mp h]
  · simp only [h, if_false, Bool.false_eq_true]
    split <;> rfl

theorem unlock_fst_achievements (t : List LevelDefinition)
    (c : List AchievementDefinition) (u : UserDoc) :
    (checkAndUnlockAchievements t c u).1.achievements
      = u.achievements ++ checkAchievementsForUser c u := by
  rw [checkAndUnlockAchievements]
  by_cases h : (checkAchievementsForUser c u).isEmpty
  · simp [h, List.isEmpty_iff.mp h]
  · simp only [h, if_false, Bool.false_eq_true]
    split <;> rfl

theorem unlock_counters (t : List LevelDefinition) (c : List AchievementDefinition)
    (u : UserDoc) :
    countersOf (checkAndUnlockAchievements t c u).1 = countersOf u := by
  rw [checkAndUnlockAchievements]
  by_cases h : (checkAchievementsForUser c u).isEmpty
  · simp [h]
  · simp only [h, if_false, Bool.false_eq_true]
    split <;> rfl

theorem reqSatisfied_congr (u v : UserDoc) (h : countersOf u = countersOf v)
    (r : AchReq) : reqSatisfied u r = reqSatisfied v r := by
  simp only [countersOf, Prod.mk.injEq] at h
  obtain ⟨e1, e2, e3, e4, e5, e6, e7⟩ := h
  cases r <;> simp [reqSatisfied, e1, e2, e3, e4, e5, e6, e7]

/-- After one unlock evaluation, no achievement is newly satisfiable: every
satisfied catalog entry is already recorded in the updated user. -/
theorem checkAgain_empty (t : List LevelDefinition) (c : List AchievementDefinition)
    (u : UserDoc) :
    checkAchievementsForUser c (checkAndUnlockAchievements t c u).1 = [] := by
  rw [checkAchievementsForUser]
  have hfil : c.filter
      (fun a => !((checkAndUnlockAchievements t c u).1.achievements.contains a.id) &&
        reqSatisfied (checkAndUnlockAchievements t c u).1 a.req) = [] := by
    rw [List.filter_eq_nil_iff]
    intro a ha hcontra
    rw [Bool.and_eq_true] at hcontra
    rcases hcontra with ⟨h1, hsat⟩
    have hnc : (checkAndUnlockAchievements t c u).1.achievements.contains a.id = false := by
      cases hcc : (checkAndUnlockAchievements t c u).1.achievements.contains a.id
      · rfl
      · rw [hcc] at h1
        exact absurd h1 (by decide)
    have hsatu : reqSatisfied u a.req = true := by
      rw [← reqSatisfied_congr (checkAndUnlockAchievements t c u).1 u
        (unlock_counters t c u) a.req]
      exact hsat
    have hacc := unlock_fst_achievements t c u
    have hmem1 : a.id ∈ (checkAndUnlockAchievements t c u).1.achievements := by
      rw [hacc]
      cases hc : u.achievements.contains a.id
      · refine List.mem_append.mpr (Or.inr ?_)
        rw [checkAchievementsForUser]
        refine List.mem_map_of_mem _ (List.mem_filter.mpr ⟨ha, ?_⟩)
        simp [hsatu]
        simpa using hc
      · exact List.mem_append.mpr (Or.inl (by simpa using hc))
    have : (checkAndUnlockAchievements t c u).1.achievements.contains a.id = true := by
      simp [hmem1]
    rw [this] at hnc
    exact Bool.noConfusion hnc
  rw [hfil]
  rfl

/-- Claim C6: the unlock evaluation is idempotent — running it a second
time on the updated user (counters unchanged) unlocks nothing and leaves
the user, hence the achievement set and the experience, unchanged; and an
achievement already present is never among the newly unlocked ids, so its
reward is added at most once. -/
theorem c6_unlock_idempotent (table : List LevelDefinition)
    (catalog : List AchievementDefinition) (u : UserDoc) :
    checkAndUnlockAchievements table catalog (checkAndUnlockAchievements table catalog u).1
        = ((checkAndUnlockAchievements table catalog u).1, []) ∧
    ∀ i ∈ u.achievements, i ∉ (checkAndUnlockAchievements table catalog u).2 := by
  constructor
  · rw [checkAndUnlockAchievements, checkAgain_empty]
    rfl
  · intro i hi hmem
    rw [unlock_snd_eq, checkAchievementsForUser] at hmem
    rcases List.mem_map.mp hmem with ⟨a, haf, hai⟩
    rcases List.mem_filter.mp haf with ⟨_, hpred⟩
    rw [Bool.and_eq_true] at hpred
    rcases hpred with ⟨h1, _⟩
    have : u.achievements.contains a.id = true := by
      rw [hai]
      simp [hi]
    rw [this] at h1
    exact absurd h1 (by decide)

/-- Witness for c6_unlock_idempotent: a user whose posts counter satisfies
the Scenario-C achievement, and who already holds a different achievement
id. -/
theorem c6_witness :
    checkAndUnlockAchievements specLevels specCatalog
        (checkAndUnlockAchievements specLevels specCatalog
          ⟨0, 1, ["older"], 0, 0, 0, some 12, some 0, some 0, some 0, some 0⟩).1
      = ((checkAndUnlockAchievements specLevels specCatalog
          ⟨0, 1, ["older"], 0, 0, 0, some 12, some 0, some 0, some 0, some 0⟩).1, []) ∧
    "older" ∉ (checkAndUnlockAchievements specLevels specCatalog
          ⟨0, 1, ["older"], 0, 0, 0, some 12, some 0, some 0, some 0, some 0⟩).2 :=
  ⟨(c6_unlock_idempotent specLevels specCatalog
      ⟨0, 1, ["older"], 0, 0, 0, some 12, some 0, some 0, some 0, some 0⟩).1,
   (c6_unlock_idempotent specLevels specCatalog
      ⟨0, 1, ["older"], 0, 0, 0, some 12, some 0, some 0, some 0, some 0⟩).2
     "older" (by decide)⟩

/-- Claim C7 counterexample: stored counter 9, authoritative recount 12,
no achievements yet, and the Scenario-C catalog entry with threshold 10.
The returned user carries the corrected counter 12 and is now eligible for
the achievement, yet the achievement set returned to the caller is still
empty — eligibility is not re-evaluated before the ledger is returned. -/
theorem c7_counterexample :
    (getUserDataWithCounts
        ⟨0, 1, [], 0, 0, 0, some 9, some 0, some 0, some 0, some 0⟩ 12).user.totalPosts
      = some 12 ∧
    (getUserDataWithCounts
        ⟨0, 1, [], 0, 0, 0, some 9, some 0, some 0, some 0, some 0⟩ 12).user.achievements
      = [] ∧
    checkAchievementsForUser specCatalog
        (getUserDataWithCounts
          ⟨0, 1, [], 0, 0, 0, some 9, some 0, some 0, some 0, some 0⟩ 12).user
      = ["posts10"] := by
  refine ⟨rfl, rfl, by decide⟩

/-- Claim C7 (amended): whenever the authoritative recount disagrees with
the stored counter, getUserDataWithCounts corrects the returned counter and
writes the corrected counters back, but it performs no achievement
re-evaluation: the achievements and the experience it returns are exactly
the stored ones. -/
theorem c7_counter_corrected_without_unlock (stored : UserDoc) (postCount : Nat) :
    (getUserDataWithCounts stored postCount).user.totalPosts = some postCount ∧
    (getUserDataWithCounts stored postCount).wrote
        = decide (postCount ≠ jsOrNat stored.totalPosts 0) ∧
    (getUserDataWithCounts stored postCount).user.achievements = stored.achievements ∧
    (getUserDataWithCounts stored postCount).user.xp = stored.xp :=
  ⟨rfl, rfl, rfl, rfl⟩

/-- Claim C8 counterexample: an entry cached at time 1000 with a 1-minute
TTL expires at 61000; a get at exactly time 61000 (expiresAt ≤ now) still
returns the value and does not evict — the staleness check is strict. -/
theorem c8_counterexample :
    offlineStorage.getCachedData 61000 (some (offlineStorage.cacheData (1000 : Int) 1 "v"))
      = (some "v", false) ∧
    (offlineStorage.cacheData (1000 : Int) 1 "v").expiration ≤ 61000 := by
  refine ⟨rfl, by decide⟩

/-- Claim C8 (amended): for an entry with a truthy (nonzero) expiration,
a get strictly after the expiration is a miss and evicts the key, while a
get at or before the expiration still returns the value. -/
theorem c8_expiry_strict {T : Type} (now : Int) (it : CacheItem T)
    (hnz : it.expiration ≠ 0) :
    (it.expiration < now → offlineStorage.getCachedData now (some it) = (none, true)) ∧
    (now ≤ it.expiration →
      offlineStorage.getCachedData now (some it) = (some it.data, false)) := by
  constructor
  · intro h
    simp [offlineStorage.getCachedData, hnz, h]
  · intro h
    have hn : ¬(it.expiration ≠ 0 ∧ it.expiration < now) := by
      intro hcon
      omega
    simp [offlineStorage.getCachedData, hn]

/-- Witness for c8_expiry_strict on the concrete entry cached at 1000 with
a 1-minute TTL, read one millisecond after expiration. -/
theorem c8_witness :
    offlineStorage.getCachedData 61001 (some (offlineStorage.cacheData (1000 : Int) 1 "v"))
      = (none, true) :=
  (c8_expiry_strict 61001 (offlineStorage.cacheData (1000 : Int) 1 "v")
    (by decide)).1 (by decide)

/- == Experience monotonicity lemmas == -/

theorem unlock_xp_ge (t : List LevelDefinition) (c : List AchievementDefinition)
    (u : UserDoc) : u.xp ≤ (checkAndUnlockAchievements t c u).1.xp := by
  rw [checkAndUnlockAchievements]
  by_cases h : (checkAchievementsForUser c u).isEmpty
  · simp [h]
  · simp only [h, if_false, Bool.false_eq_true]
    split
    · exact Int.le_add_of_nonneg_right (Int.ofNat_nonneg _)
    · exact Int.le_add_of_nonneg_right (Int.ofNat_nonneg _)

/-- Claim C9: each ledger operation — awarding XP, unlocking achievements,
applying retroactive credit — never decreases experience, and preserves
non-negativity of experience. -/
theorem c9_xp_monotone_nonneg (table : List LevelDefinition)
    (catalog : List AchievementDefinition) (amount rawRetro : Int) (u : UserDoc) :
    (u.xp ≤ (awardXP table amount u).xp ∧
      (0 ≤ u.xp → 0 ≤ (awardXP table amount u).xp)) ∧
    (u.xp ≤ (checkAndUnlockAchievements table catalog u).1.xp ∧
      (0 ≤ u.xp → 0 ≤ (checkAndUnlockAchievements table catalog u).1.xp)) ∧
    (u.xp ≤ (applyRetroactiveXP table rawRetro u).xp ∧
      (0 ≤ u.xp → 0 ≤ (applyRetroactiveXP table rawRetro u).xp)) := by
  have haw : u.xp ≤ (awardXP table amount u).xp := by
    rw [awardXP]
    split
    · exact le_refl u.xp
    · rename_i hpos
      have hnn : 0 ≤ amount := le_of_lt (lt_of_not_le hpos)
      exact Int.le_add_of_nonneg_right hnn
  have hun : u.xp ≤ (checkAndUnlockAchievements table catalog u).1.xp :=
    unlock_xp_ge table catalog u
  have hre : u.xp ≤ (applyRetroactiveXP table rawRetro u).xp := by
    rw [applyRetroactiveXP]
    split
    · rename_i hlt
      exact le_of_lt hlt
    · exact le_refl u.xp
  exact ⟨⟨haw, fun h0 => le_trans h0 haw⟩, ⟨hun, fun h0 => le_trans h0 hun⟩,
    ⟨hre, fun h0 => le_trans h0 hre⟩⟩

/-- Witness for c9_xp_monotone_nonneg at a concrete user with 5 XP, awarding
10 XP, the Scenario catalog and a retro credit of 7. -/
theorem c9_witness :
    ((⟨5, 1, [], 0, 0, 0, some 0, some 0, some 0, some 0, some 0⟩ : UserDoc).xp ≤
        (awardXP specLevels 10 ⟨5, 1, [], 0, 0, 0, some 0, some 0, some 0, some 0, some 0⟩).xp ∧
      (0 ≤ (⟨5, 1, [], 0, 0, 0, some 0, some 0, some 0, some 0, some 0⟩ : UserDoc).xp →
        0 ≤ (awardXP specLevels 10 ⟨5, 1, [], 0, 0, 0, some 0, some 0, some 0, some 0, some 0⟩).xp)) ∧
    ((⟨5, 1, [], 0, 0, 0, some 0, some 0, some 0, some 0, some 0⟩ : UserDoc).xp ≤
        (checkAndUnlockAchievements specLevels specCatalog
          ⟨5, 1, [], 0, 0, 0, some 0, some 0, some 0, some 0, some 0⟩).1.xp ∧
      (0 ≤ (⟨5, 1, [], 0, 0, 0, some 0, some 0, some 0, some 0, some 0⟩ : UserDoc).xp →
        0 ≤ (checkAndUnlockAchievements specLevels specCatalog
          ⟨5, 1, [], 0, 0, 0, some 0, some 0, some 0, some 0, some 0⟩).1.xp)) ∧
    ((⟨5, 1, [], 0, 0, 0, some 0, some 0, some 0, some 0, some 0⟩ : UserDoc).xp ≤
        (applyRetroactiveXP specLevels 7
          ⟨5, 1, [], 0, 0, 0, some 0, some 0, some 0, some 0, some 0⟩).xp ∧
      (0 ≤ (⟨5, 1, [], 0, 0, 0, some 0, some 0, some 0, some 0, some 0⟩ : UserDoc).xp →
        0 ≤ (applyRetroactiveXP specLevels 7
          ⟨5, 1, [], 0, 0, 0, some 0, some 0, some 0, some 0, some 0⟩).xp)) :=
  c9_xp_monotone_nonneg specLevels specCatalog 10 7
    ⟨5, 1, [], 0, 0, 0, some 0, some 0, some 0, some 0, some 0⟩
